import Mathlib

/-
Verification of the slouchless live feedback overlay pipeline.

Shallow embedding of:
  - src/popup/overlay.py        (compositor: render_feedback_frame and helpers)
  - src/popup/ffplay_feedback.py (viewer process channel: open / write / close)
  - src/popup/feedback_manager.py (inference worker and frame pump coordinator)

Real time is modelled by rational-valued timestamps supplied by the
environment; Python floats are modelled as exact rationals.
-/

namespace Slouchless

/-- Opaque bitmap with a width and a height (PIL Image dimensions). -/
structure Frame where
  width : ℕ
  height : ℕ
deriving DecidableEq

/-- PIL round_aspect: max(min(floor(number), ceil(number), key=key), 1).
Python min with a key returns the first argument on ties, so floor wins ties. -/
def round_aspect (q : ℚ) (key : ℤ → ℚ) : ℤ :=
  max (if key ⌊q⌋ ≤ key ⌈q⌉ then ⌊q⌋ else ⌈q⌉) 1

/-- PIL Image.thumbnail((boxW, boxH)): in-place downscale that never enlarges,
adjusting one dimension by the aspect ratio. Mirrors Pillow's thumbnail:
if the image already fits the box it is unchanged; otherwise the dimension
that overflows relatively more is kept at the box bound and the other is
rounded from the exact aspect ratio. -/
def thumbnail (img : Frame) (boxW boxH : ℕ) : Frame :=
  if img.width ≤ boxW ∧ img.height ≤ boxH then img
  else
    let aspect : ℚ := (img.width : ℚ) / (img.height : ℚ)
    if aspect ≤ (boxW : ℚ) / (boxH : ℚ) then
      ⟨(round_aspect ((boxH : ℚ) * aspect) (fun n => |aspect - (n : ℚ) / (boxH : ℚ)|)).toNat,
        boxH⟩
    else
      ⟨boxW,
        (round_aspect ((boxW : ℚ) / aspect)
          (fun n => if n = 0 then 0 else |aspect - (boxW : ℚ) / (n : ℚ)|)).toNat⟩

/-- overlay.py: kind → headline text ("good" / "bad" / anything else is error). -/
def kindHeadline (kind : String) : String :=
  if kind = "good" then "GOOD POSTURE"
  else if kind = "bad" then "BAD POSTURE"
  else "MODEL ERROR"

/-- overlay.py: kind → accent color RGB. -/
def kindColor (kind : String) : ℕ × ℕ × ℕ :=
  if kind = "good" then (34, 197, 94)
  else if kind = "bad" then (239, 68, 68)
  else (245, 158, 11)

/-- Whitespace characters recognized by Python str.split / str.strip
(ASCII subset, which is what the rendered messages contain). -/
def pythonIsSpace (c : Char) : Bool :=
  c = ' ' || c = '\t' || c = '\n' || c = '\r' || c = '\x0b' || c = '\x0c'

/-- Helper for Python str.split(): accumulate the current word (reversed). -/
def splitWsAux : List Char → List Char → List (List Char)
  | [], cur => if cur = [] then [] else [cur.reverse]
  | c :: cs, cur =>
    if pythonIsSpace c then
      if cur = [] then splitWsAux cs [] else cur.reverse :: splitWsAux cs []
    else splitWsAux cs (c :: cur)

/-- Python str.split() with no arguments: split on whitespace runs, no empties. -/
def splitWs (s : List Char) : List (List Char) := splitWsAux s []

/-- Python " ".join(words). -/
def joinSpace : List (List Char) → List Char
  | [] => []
  | w :: ws =>
    match ws with
    | [] => w
    | _ :: _ => w ++ ' ' :: joinSpace ws

/-- Python str.strip(): drop leading and trailing whitespace. -/
def stripWs (s : List Char) : List Char :=
  ((s.dropWhile fun c => pythonIsSpace c).reverse.dropWhile fun c => pythonIsSpace c).reverse

/-- overlay.py _strip_known_emoji_tofu's bad_chars, restricted to the entries
that can actually match: membership is tested per character, so the two-code-
point entry U+26A0 U+FE0F in the Python set can never equal a single char and
is dropped here; its two constituents are separately in the set anyway. -/
def badChars : List Char := ['✅', '🚨', '⏰', '📢', '❗', '⚠', '️']

/-- overlay.py _strip_known_emoji_tofu: remove known emoji characters, then
collapse whitespace runs via " ".join(text.split()).strip(). -/
def stripKnownEmojiTofu (text : List Char) : List Char :=
  stripWs (joinSpace (splitWs (text.filter fun c => !(badChars.contains c))))

/-- overlay.py line 171: msg_clean = _strip_known_emoji_tofu((message or "").strip()). -/
def msgClean (message : String) : List Char :=
  stripKnownEmojiTofu (stripWs message.toList)

/-- overlay.py lines 176-188: the greedy word-wrap loop.
State: remaining words, current_line, accumulated lines (reversed). -/
def wrapLoop (max_chars : ℕ) : List (List Char) → List Char → List (List Char) → List (List Char)
  | [], cur, lines => if cur = [] then lines.reverse else (cur :: lines).reverse
  | word :: rest, cur, lines =>
    if cur.length + word.length + 1 ≤ max_chars then
      wrapLoop max_chars rest (if cur = [] then word else cur ++ ' ' :: word) lines
    else
      wrapLoop max_chars rest word (if cur = [] then lines else cur :: lines)

/-- overlay.py lines 170-196: the message lines actually drawn.
Empty cleaned message → no line; length ≤ 45 → a single line; otherwise the
greedy wrap truncated to 2 lines (lines[:2]). -/
def messageLines (message : String) : List (List Char) :=
  let m := msgClean message
  if m = [] then []
  else if 45 < m.length then (wrapLoop 45 (splitWs m) [] []).take 2
  else [m]

/-- The countdown text f"Next: \x7bcountdown_secs:.1f\x7ds" decomposed: sign flag,
integer part and tenths digit of the rounded magnitude. -/
structure CountdownLabel where
  neg : Bool
  whole : ℕ
  tenth : ℕ
deriving DecidableEq

/-- Python "%.1f" fixed-point formatting of the countdown: round the magnitude
to tenths (rational rounding models the float rounding), keep the sign. -/
def formatFixed1 (c : ℚ) : CountdownLabel :=
  let t : ℕ := (round (|c| * 10)).toNat
  { neg := decide (c < 0), whole := t / 10, tenth := t % 10 }

/-- overlay.py line 153: countdown_text = f"Next: \x7bcountdown_secs:.1f\x7ds". -/
def countdownTextOf (c : ℚ) : String :=
  let l := formatFixed1 c
  "Next: " ++ (if l.neg then "-" else "") ++ toString l.whole ++ "." ++ toString l.tenth ++ "s"

/-- The observable content of the composited frame returned by
overlay.py render_feedback_frame: canvas dimensions, pasted thumbnail
geometry, headline/accent from the kind, countdown label, message lines. -/
structure RenderedFrame where
  canvasW : ℕ
  canvasH : ℕ
  thumbW : ℕ
  thumbH : ℕ
  pasteX : ℤ
  pasteY : ℤ
  headline : String
  accent : ℕ × ℕ × ℕ
  countdown_label : CountdownLabel
  countdown_text : String
  message_lines : List (List Char)
deriving DecidableEq

/-- overlay.py render_feedback_frame (lines 99-200): build the canvas at the
configured thumbnail_size, paste the (never enlarged) thumbnail centered,
draw headline/color by kind, the countdown label, and the wrapped message.
raw_output is accepted but not drawn, as in the source. -/
def render_feedback_frame (image : Frame) (kind : String) (message : String)
    (raw_output : Option String) (countdown_secs : ℚ) (thumbnail_size : ℕ × ℕ) :
    RenderedFrame :=
  let w := thumbnail_size.1
  let h := thumbnail_size.2
  let img := thumbnail image w h
  { canvasW := w
    canvasH := h
    thumbW := img.width
    thumbH := img.height
    pasteX := Int.fdiv ((w : ℤ) - (img.width : ℤ)) 2
    pasteY := Int.fdiv ((h : ℤ) - (img.height : ℤ)) 2
    headline := kindHeadline kind
    accent := kindColor kind
    countdown_label := formatFixed1 countdown_secs
    countdown_text := countdownTextOf countdown_secs
    message_lines := messageLines message }

/-! ## Viewer process channel (ffplay_feedback.py) -/

/-- The ffplay process handle as the channel observes it: poll() is None
(alive) and whether its stdin pipe is available. -/
structure ProcState where
  alive : Bool
  stdin_open : Bool
deriving DecidableEq

/-- The module-global channel state: _ffplay_feedback and _ffplay_feedback_closed. -/
structure ChannelState where
  feedback : Option ProcState
  closed : Bool
deriving DecidableEq

/-- Outcome of the attempted OS pipe write: success (with the process's
liveness as observed by poll() right after), broken pipe, or other OS error. -/
inductive WriteOutcome
  | ok (alive_after : Bool)
  | brokenPipe
  | osError
deriving DecidableEq

/-- ffplay_feedback.close_feedback_window: clears the handle, latches closed;
pipe close and terminate are best-effort (exceptions swallowed). -/
def close_feedback_window (_s : ChannelState) : ChannelState :=
  { feedback := none, closed := true }

/-- ffplay_feedback.open_feedback_window (success path): no-op if a live
process exists, otherwise resets the latch and installs the new process. -/
def open_feedback_window (s : ChannelState) (p : ProcState) : ChannelState :=
  match s.feedback with
  | some q => if q.alive then s else { feedback := some p, closed := false }
  | none => { feedback := some p, closed := false }

/-- Result of one send_feedback_frame call: the returned bool, the new
channel state, and whether a pipe write was actually attempted. -/
structure WriteResult where
  ok : Bool
  state : ChannelState
  ioAttempted : Bool
deriving DecidableEq

/-- ffplay_feedback.send_feedback_frame (lines 120-155): early-return False
when latched closed, no process, process exited, or stdin missing — all
without IO; otherwise attempt the write: on success return poll() is None,
on BrokenPipeError/OSError call close_feedback_window() and return False. -/
def send_feedback_frame (s : ChannelState) (outcome : WriteOutcome) : WriteResult :=
  if s.closed then ⟨false, s, false⟩
  else
    match s.feedback with
    | none => ⟨false, s, false⟩
    | some p =>
      if !p.alive || !p.stdin_open then ⟨false, s, false⟩
      else
        match outcome with
        | .ok alive_after =>
          ⟨alive_after, { s with feedback := some { p with alive := alive_after } }, true⟩
        | .brokenPipe => ⟨false, close_feedback_window s, true⟩
        | .osError => ⟨false, close_feedback_window s, true⟩

/-- Repeated send_feedback_frame calls threading the channel state. -/
def writeSeq (s : ChannelState) : List WriteOutcome → List WriteResult
  | [] => []
  | o :: os =>
    let r := send_feedback_frame s o
    r :: writeSeq r.state os

/-! ## Inference worker (feedback_manager.py _infer_worker) -/

/-- The shared overlay dict guarded by overlay_lock. -/
structure Overlay where
  kind : String
  message : String
  raw_output : String
  next_inference_at : ℚ
deriving DecidableEq

/-- feedback_manager.run lines 40-45: the overlay's initial value. -/
def initialOverlay (t0 : ℚ) : Overlay :=
  { kind := "bad", message := "analyzing...", raw_output := "", next_inference_at := t0 }

/-- feedback_manager.__init__ line 19:
interval_s = max(0.05, popup_feedback_interval_ms / 1000). -/
def interval_s (popup_feedback_interval_ms : ℚ) : ℚ :=
  max 0.05 (popup_feedback_interval_ms / 1000)

/-- What one detector.analyze call produced: a result dict (fields optional,
None modelling both a missing key and a falsy value is coalesced below), or
an exception with its description type(e).__name__: e. -/
inductive AnalyzeOutcome
  | ok (kind : Option String) (message : Option String) (raw : Option String)
  | raises (desc : String)
deriving DecidableEq

/-- Python str(x or default): empty and missing values fall back to default. -/
def orDefault (o : Option String) (d : String) : String :=
  match o with
  | none => d
  | some s => if s = "" then d else s

/-- Worker-local state: `last` (time the previous inference attempt started)
and the shared overlay it publishes into. -/
structure WorkerState where
  last : ℚ
  overlay : Overlay
deriving DecidableEq

/-- The environment of one worker-loop iteration: time.time() at loop top,
whether latest_frame["img"] is non-None, the classifier outcome, and
time.time() when the status is published after the call returns/raises. -/
structure WorkerEnv where
  now : ℚ
  frameAvailable : Bool
  outcome : AnalyzeOutcome
  done : ℚ
deriving DecidableEq

/-- What one worker-loop iteration did. -/
inductive WorkerAction
  | slept (dur : ℚ)
  | skippedNoFrame
  | inferred
deriving DecidableEq

/-- feedback_manager _infer_worker loop body (lines 62-89): if less than
interval_s elapsed since `last`, sleep min(0.05, interval_s) and re-check;
otherwise set last := now, skip if no frame, else publish the classifier
result (or the error status on exception) with
next_inference_at = time-of-completion + interval_s. -/
def workerStep (interval : ℚ) (s : WorkerState) (e : WorkerEnv) : WorkerState × WorkerAction :=
  if e.now - s.last < interval then (s, .slept (min 0.05 interval))
  else
    let s1 : WorkerState := { s with last := e.now }
    if !e.frameAvailable then (s1, .skippedNoFrame)
    else
      match e.outcome with
      | .ok k m r =>
        ({ s1 with overlay :=
            { kind := orDefault k "error"
              message := orDefault m "error"
              raw_output := orDefault r ""
              next_inference_at := e.done + interval } }, .inferred)
      | .raises d =>
        ({ s1 with overlay :=
            { kind := "error"
              message := d
              raw_output := ""
              next_inference_at := e.done + interval } }, .inferred)

/-- The worker loop: while not stop_inference.is_set(), run one body
iteration; each list element carries the stop flag observed at the loop
condition together with that iteration's environment. -/
def workerRun (interval : ℚ) : WorkerState → List (Bool × WorkerEnv) → WorkerState × List WorkerAction
  | s, [] => (s, [])
  | s, (stopSet, e) :: rest =>
    if stopSet then (s, [])
    else
      ((workerRun interval (workerStep interval s e).1 rest).1,
        (workerStep interval s e).2 :: (workerRun interval (workerStep interval s e).1 rest).2)

/-! ## Frame pump and coordinator (feedback_manager.py run) -/

deriving instance DecidableEq for Except

/-- The environment of one pump-loop tick: the should_continue_callback()
value, the capture_frame() result (or exception description), the overlay
snapshot read under the lock, time.time() for the countdown, and the
send_feedback_frame result (or an exception escaping it). -/
structure TickIn where
  sc : Bool
  frame : Except String ℕ
  ov : Overlay
  now : ℚ
  write : Except String Bool
deriving DecidableEq

/-- Why the pump loop stopped (running = the supplied trace ran out while
the loop was still going). -/
inductive PumpExit
  | stopRequested
  | writeFailed
  | excCaught (desc : String)
  | running
deriving DecidableEq

/-- Observable effects of FeedbackManager.run, in program order. The initial
write records the overlay values it was rendered from and its countdown. -/
inductive Eff
  | openedWindow
  | wroteInitial (kind : String) (message : String) (countdown : ℚ)
  | startedWorker
  | storedFrame (i : ℕ)
  | wrote (i : ℕ) (countdown : ℚ)
  | sleptTick (dt : ℚ)
  | loggedException (desc : String)
  | setStopInference
  | closedChannelByRun
deriving DecidableEq

/-- feedback_manager.run lines 95-123: the while-True pump body. Exit on
should_continue false; frame-source or write exceptions escape to the
enclosing except (reported as excCaught); store the frame into the shared
slot, compute countdown = max(0, next_inference_at - now), write, exit on a
false write result, else sleep pump_dt and loop. -/
def pumpLoop (dt : ℚ) : List TickIn → List Eff × PumpExit
  | [] => ([], .running)
  | t :: ts =>
    if !t.sc then ([], .stopRequested)
    else
      match t.frame with
      | .error d => ([], .excCaught d)
      | .ok i =>
        let countdown := max 0 (t.ov.next_inference_at - t.now)
        match t.write with
        | .error d => ([Eff.storedFrame i], .excCaught d)
        | .ok ok =>
          if !ok then ([Eff.storedFrame i, Eff.wrote i countdown], .writeFailed)
          else
            let rest := pumpLoop dt ts
            (Eff.storedFrame i :: Eff.wrote i countdown :: Eff.sleptTick dt :: rest.1, rest.2)

/-- Field names declared on Settings (src/settings.py lines 47-134).
Attribute access on a pydantic model for any other name raises
AttributeError; extra="ignore" adds no attributes. -/
def settings_fields : List String :=
  ["camera_name", "camera_device_id", "camera_resize_to", "camera_grab_frames",
   "detector_type", "model_name", "gpu_memory_utilization", "quantization",
   "max_num_seqs", "enforce_eager", "distributed_executor_backend", "max_tokens",
   "temperature", "prompt", "openai_api_key", "openai_model",
   "check_interval_seconds", "debug_save_frames", "debug_clear_frames_on_start",
   "debug_max_frames", "debug_frames_dir", "log_level", "popup_thumbnail_size",
   "popup_feedback_interval_ms", "popup_preview_fps"]

/-- Parameter names of ffplay_feedback.send_feedback_frame (lines 120-128):
`image` is positional-or-keyword, the rest are keyword-only. -/
def send_feedback_frame_params : List String :=
  ["image", "kind", "message", "raw_output", "countdown_secs", "thumbnail_size"]

/-- Keyword arguments FeedbackManager.run passes to send_feedback_frame at
both call sites (feedback_manager.py lines 48-56 and 110-118); the image is
passed positionally. -/
def coordinator_send_kwargs : List String :=
  ["kind", "message", "raw_output", "countdown_secs", "fps", "thumbnail_size"]

/-- Python call binding: a keyword argument that matches no declared
parameter raises TypeError before the function body runs. -/
def callRaisesTypeError (params kwargs : List String) : Bool :=
  kwargs.any fun k => !(params.contains k)

/-- How run() ends: an exception raised during session start (lines 36-56,
before the try block) propagates to the caller; otherwise the pump loop
runs and run returns normally after the finally block. -/
inductive RunExit
  | raisedAtStart (desc : String)
  | finished (exit : PumpExit)
deriving DecidableEq

/-- The session-start environment run() executes against: the outcome of
the show_slouch_popup call (line 36) and of the initial send_feedback_frame
call (lines 48-56, whose boolean result is discarded). Both sit before the
try block, so an exception from either propagates out of run(). -/
structure StartEnv where
  popup_open : Except String Unit
  initial_send : Except String Bool

/-- The start environment this source actually produces: show_slouch_popup
calls resolve_popup_backend, which reads settings.popup_backend — not a
Settings field — raising AttributeError; and the initial
send_feedback_frame call binds fps=..., a keyword the function does not
declare, raising TypeError before any channel IO. -/
def sourceStartEnv : StartEnv :=
  { popup_open :=
      Except.error "AttributeError: Settings object has no attribute popup_backend"
    initial_send :=
      Except.error "TypeError: send_feedback_frame got an unexpected keyword argument fps" }

/-- The write outcome every pump tick of this source produces: the call at
lines 110-118 passes fps=, absent from send_feedback_frame's parameters, so
it raises TypeError before reaching the channel. -/
def sourceWriteResult : Except String Bool :=
  Except.error "TypeError: send_feedback_frame got an unexpected keyword argument fps"

/-- feedback_manager.run (lines 23-128): call show_slouch_popup, initialize
the overlay dict, write one initial frame from it, start the worker, then
run the pump loop inside try/except Exception/finally — a caught exception
is logged and the finally block sets stop_inference; run never calls
close_feedback_window. The two session-start calls sit before the try
block: if either raises, the exception propagates and nothing further
runs (in this source both raise — see sourceStartEnv). -/
def runEffects (start : StartEnv) (dt t0 : ℚ) (ticks : List TickIn) :
    List Eff × RunExit :=
  match start.popup_open with
  | .error d => ([], .raisedAtStart d)
  | .ok _ =>
    match start.initial_send with
    | .error d => ([Eff.openedWindow], .raisedAtStart d)
    | .ok _ =>
      let ov0 := initialOverlay t0
      let p := pumpLoop dt ticks
      (Eff.openedWindow :: Eff.wroteInitial ov0.kind ov0.message 0 :: Eff.startedWorker ::
          (p.1 ++ (match p.2 with
            | .excCaught d => [Eff.loggedException d]
            | _ => []) ++ [Eff.setStopInference]),
        .finished p.2)

/-- Recognizes the initial-frame write effect. -/
def Eff.isInitialWrite : Eff → Bool
  | .wroteInitial _ _ _ => true
  | _ => false

/-- Recognizes a pump-loop frame write effect. -/
def Eff.isFrameWrite : Eff → Bool
  | .wrote _ _ => true
  | _ => false

/-- Number of frames the pump streamed to the viewer. -/
def wroteCount (effs : List Eff) : ℕ := effs.countP Eff.isFrameWrite

/-- Two pump ticks agree on everything the loop's control flow reads: the
should-continue value, the frame-capture result, and the write result. The
overlay snapshot and clock are left free. -/
def sameControl (t t' : TickIn) : Prop :=
  t.sc = t'.sc ∧ t.frame = t'.frame ∧ t.write = t'.write

instance (t t' : TickIn) : Decidable (sameControl t t') := by
  unfold sameControl
  infer_instance

/-! ## Helper lemmas: viewer process channel -/

/-- A latched-closed channel refuses the write untouched and without IO. -/
theorem send_feedback_frame_of_closed (s : ChannelState) (o : WriteOutcome)
    (h : s.closed = true) : send_feedback_frame s o = ⟨false, s, false⟩ := by
  unfold send_feedback_frame
  simp [h]

/-- An exited process (or missing stdin) makes the write a no-IO failure. -/
theorem send_feedback_frame_of_dead (s : ChannelState) (o : WriteOutcome) (p : ProcState)
    (hf : s.feedback = some p) (hd : p.alive = false ∨ p.stdin_open = false) :
    send_feedback_frame s o = ⟨false, s, false⟩ := by
  unfold send_feedback_frame
  rw [hf]
  split
  · rfl
  · rcases hd with hd | hd <;> simp [hd]

/-- A broken-pipe or OS-error write either fails early with no IO, or
attempts the write and latches the channel via close_feedback_window. -/
theorem send_feedback_frame_fail_cases (s : ChannelState) (o : WriteOutcome)
    (ho : o = WriteOutcome.brokenPipe ∨ o = WriteOutcome.osError) :
    send_feedback_frame s o = ⟨false, s, false⟩ ∨
    send_feedback_frame s o = ⟨false, close_feedback_window s, true⟩ := by
  rcases ho with h | h <;> subst h <;>
  · unfold send_feedback_frame
    split
    · exact Or.inl rfl
    · split
      · exact Or.inl rfl
      · split
        · exact Or.inl rfl
        · exact Or.inr rfl

/-- A broken-pipe or OS-error write returns false in every channel state. -/
theorem send_feedback_frame_fail_false (s : ChannelState) (o : WriteOutcome)
    (ho : o = WriteOutcome.brokenPipe ∨ o = WriteOutcome.osError) :
    (send_feedback_frame s o).ok = false := by
  rcases send_feedback_frame_fail_cases s o ho with h | h <;> rw [h]

/-- If a broken-pipe or OS-error write actually attempted IO, the channel is
latched closed afterwards. -/
theorem send_feedback_frame_fail_latches (s : ChannelState) (o : WriteOutcome)
    (ho : o = WriteOutcome.brokenPipe ∨ o = WriteOutcome.osError)
    (hio : (send_feedback_frame s o).ioAttempted = true) :
    (send_feedback_frame s o).state.closed = true := by
  rcases send_feedback_frame_fail_cases s o ho with h | h
  · rw [h] at hio; exact absurd hio (by simp)
  · rw [h]; rfl

/-- Every write after the latch returns false without attempting IO. -/
theorem writeSeq_of_closed (os : List WriteOutcome) (s : ChannelState)
    (h : s.closed = true) :
    ∀ r ∈ writeSeq s os, r.ok = false ∧ r.ioAttempted = false := by
  induction os generalizing s with
  | nil => intro r hr; simp [writeSeq] at hr
  | cons o os ih =>
    intro r hr
    rw [writeSeq, send_feedback_frame_of_closed s o h] at hr
    rcases List.mem_cons.mp hr with hr | hr
    · subst hr; exact ⟨rfl, rfl⟩
    · exact ih s h r hr

/-- C1: a viewer-channel write that hits a broken pipe or OS error, or finds
the process already exited, returns false (no exception is modelled to
escape: the handler catches BrokenPipeError and OSError); a pipe-write
failure that attempted IO latches the channel closed, and from a latched
channel every subsequent write without an intervening open() returns false
without attempting IO. -/
theorem viewer_write_failure_latches (s : ChannelState) (o : WriteOutcome) (p : ProcState) :
    ((o = WriteOutcome.brokenPipe ∨ o = WriteOutcome.osError) →
      (send_feedback_frame s o).ok = false) ∧
    (s.feedback = some p → p.alive = false →
      send_feedback_frame s o = ⟨false, s, false⟩) ∧
    ((o = WriteOutcome.brokenPipe ∨ o = WriteOutcome.osError) →
      (send_feedback_frame s o).ioAttempted = true →
      (send_feedback_frame s o).state.closed = true ∧
      ∀ os, ∀ r ∈ writeSeq (send_feedback_frame s o).state os,
        r.ok = false ∧ r.ioAttempted = false) ∧
    (s.closed = true → ∀ os, ∀ r ∈ writeSeq s os, r.ok = false ∧ r.ioAttempted = false) := by
  refine ⟨send_feedback_frame_fail_false s o, ?_, ?_, ?_⟩
  · intro hf hd
    exact send_feedback_frame_of_dead s o p hf (Or.inl hd)
  · intro ho hio
    have hcl := send_feedback_frame_fail_latches s o ho hio
    exact ⟨hcl, fun os => writeSeq_of_closed os _ hcl⟩
  · intro h os
    exact writeSeq_of_closed os s h

/-- C1 witness: a live channel hit by a broken pipe on the first write, then
probed with two more writes; and a channel whose process has exited. -/
theorem viewer_write_failure_latches_witness :
    ((send_feedback_frame ⟨some ⟨true, true⟩, false⟩ WriteOutcome.brokenPipe).ok = false ∧
      (send_feedback_frame ⟨some ⟨true, true⟩, false⟩ WriteOutcome.brokenPipe).state.closed = true ∧
      ∀ r ∈ writeSeq (send_feedback_frame ⟨some ⟨true, true⟩, false⟩ WriteOutcome.brokenPipe).state
          [WriteOutcome.ok true, WriteOutcome.osError],
        r.ok = false ∧ r.ioAttempted = false) ∧
    send_feedback_frame ⟨some ⟨false, true⟩, false⟩ (WriteOutcome.ok true) =
      ⟨false, ⟨some ⟨false, true⟩, false⟩, false⟩ := by
  have h1 := viewer_write_failure_latches ⟨some ⟨true, true⟩, false⟩ WriteOutcome.brokenPipe
    ⟨true, true⟩
  have h2 := viewer_write_failure_latches ⟨some ⟨false, true⟩, false⟩ (WriteOutcome.ok true)
    ⟨false, true⟩
  refine ⟨⟨h1.1 (Or.inl rfl), ?_, ?_⟩, h2.2.1 rfl rfl⟩
  · exact (h1.2.2.1 (Or.inl rfl) (by decide)).1
  · exact (h1.2.2.1 (Or.inl rfl) (by decide)).2 _

/-! ## C10: effective inference interval -/

/-- C10: the effective inference interval is max(0.05, interval_ms / 1000)
seconds, hence never below 50 milliseconds for any configured value. -/
theorem effective_interval_never_below_50ms (popup_feedback_interval_ms : ℚ) :
    interval_s popup_feedback_interval_ms =
      max 0.05 (popup_feedback_interval_ms / 1000) ∧
    (0.05 : ℚ) ≤ interval_s popup_feedback_interval_ms :=
  ⟨rfl, le_max_left _ _⟩

/-! ## Helper lemmas: pump loop and coordinator -/

/-- The pump loop only stores frames, writes them, and sleeps: it never
writes the initial frame, never signals the worker, never logs, and never
closes the channel. -/
theorem pumpLoop_effects_shape (dt : ℚ) (ticks : List TickIn) :
    ∀ e ∈ (pumpLoop dt ticks).1,
      (∃ i, e = Eff.storedFrame i) ∨ (∃ i c, e = Eff.wrote i c) ∨ e = Eff.sleptTick dt := by
  induction ticks with
  | nil => intro e he; simp [pumpLoop] at he
  | cons t ts ih =>
    intro e he
    rw [pumpLoop] at he
    split at he
    · simp at he
    · split at he
      · simp at he
      · split at he
        · simp at he
          subst he
          exact Or.inl ⟨_, rfl⟩
        · split at he
          · simp at he
            rcases he with he | he
            · subst he; exact Or.inl ⟨_, rfl⟩
            · subst he; exact Or.inr (Or.inl ⟨_, _, rfl⟩)
          · simp at he
            rcases he with he | he | he | he
            · subst he; exact Or.inl ⟨_, rfl⟩
            · subst he; exact Or.inr (Or.inl ⟨_, _, rfl⟩)
            · subst he; exact Or.inr (Or.inr rfl)
            · exact ih e he

/-- A session-start failure in show_slouch_popup propagates: run produces
no effects and raises. -/
theorem runEffects_of_popup_open_error (start : StartEnv) (d : String) (dt t0 : ℚ)
    (ticks : List TickIn) (hpo : start.popup_open = Except.error d) :
    runEffects start dt t0 ticks = ([], RunExit.raisedAtStart d) := by
  simp [runEffects, hpo]

/-- A raising initial write propagates: only the window-open effect
happened, and run raises before the worker or the loop start. -/
theorem runEffects_of_initial_send_error (start : StartEnv) (d : String) (dt t0 : ℚ)
    (ticks : List TickIn) (hpo : start.popup_open = Except.ok ())
    (hsi : start.initial_send = Except.error d) :
    runEffects start dt t0 ticks = ([Eff.openedWindow], RunExit.raisedAtStart d) := by
  simp [runEffects, hpo, hsi]

/-- With both session-start calls returning normally, run's effect list
splits as a front part concatenated with the final stop signal from the
finally block. -/
theorem runEffects_eq_concat (start : StartEnv) (b : Bool) (dt t0 : ℚ) (ticks : List TickIn)
    (hpo : start.popup_open = Except.ok ()) (hsi : start.initial_send = Except.ok b) :
    (runEffects start dt t0 ticks).1 =
      (Eff.openedWindow :: Eff.wroteInitial "bad" "analyzing..." 0 :: Eff.startedWorker ::
        ((pumpLoop dt ticks).1 ++ (match (pumpLoop dt ticks).2 with
          | .excCaught d => [Eff.loggedException d]
          | _ => []))) ++ [Eff.setStopInference] := by
  simp [runEffects, hpo, hsi, initialOverlay, List.append_assoc]

/-- With both session-start calls returning normally, run returns with the
pump loop's own exit. -/
theorem runEffects_exit_of_ok (start : StartEnv) (b : Bool) (dt t0 : ℚ) (ticks : List TickIn)
    (hpo : start.popup_open = Except.ok ()) (hsi : start.initial_send = Except.ok b) :
    (runEffects start dt t0 ticks).2 = RunExit.finished (pumpLoop dt ticks).2 := by
  simp [runEffects, hpo, hsi]

/-- C3: run never closes the viewer channel in any environment; whenever
the pump loop is reached, however it exits — caller-requested stop, failed
write, or a frame-source/write exception caught at the loop boundary —
run's last effect is setting the worker stop signal from the finally
block, run returns (rather than raises) carrying the loop's exit, and a
caught exception is logged rather than re-raised; a session-start
exception instead propagates before the loop ever runs. -/
theorem run_signals_worker_stop_on_exit (start : StartEnv) (b : Bool) (dt t0 : ℚ)
    (ticks : List TickIn) :
    Eff.closedChannelByRun ∉ (runEffects start dt t0 ticks).1 ∧
    (start.popup_open = Except.ok () → start.initial_send = Except.ok b →
      (runEffects start dt t0 ticks).1.getLast? = some Eff.setStopInference ∧
      (runEffects start dt t0 ticks).2 = RunExit.finished (pumpLoop dt ticks).2 ∧
      (∀ d, (pumpLoop dt ticks).2 = PumpExit.excCaught d →
        Eff.loggedException d ∈ (runEffects start dt t0 ticks).1)) ∧
    (∀ d, start.popup_open = Except.error d →
      runEffects start dt t0 ticks = ([], RunExit.raisedAtStart d)) := by
  refine ⟨?_, ?_, fun d hd => runEffects_of_popup_open_error start d dt t0 ticks hd⟩
  · cases hpo : start.popup_open with
    | error d =>
      rw [runEffects_of_popup_open_error start d dt t0 ticks hpo]
      simp
    | ok u =>
      cases u
      cases hsi : start.initial_send with
      | error d =>
        rw [runEffects_of_initial_send_error start d dt t0 ticks hpo hsi]
        simp
      | ok bb =>
        rw [runEffects_eq_concat start bb dt t0 ticks hpo hsi]
        intro hmem
        simp only [List.mem_append, List.mem_cons, List.mem_singleton] at hmem
        rcases hmem with ((h | h | h | (h | h)) | h)
        · exact Eff.noConfusion h
        · exact Eff.noConfusion h
        · exact Eff.noConfusion h
        · rcases pumpLoop_effects_shape dt ticks _ h with ⟨i, hi⟩ | ⟨i, c, hi⟩ | hi <;>
            exact Eff.noConfusion hi
        · revert h
          split <;> intro h <;> simp at h
        · rcases h with h | h
          · exact Eff.noConfusion h
          · simp at h
  · intro hpo hsi
    refine ⟨?_, runEffects_exit_of_ok start b dt t0 ticks hpo hsi, ?_⟩
    · rw [runEffects_eq_concat start b dt t0 ticks hpo hsi]
      exact List.getLast?_concat _
    · intro d hd
      rw [runEffects_eq_concat start b dt t0 ticks hpo hsi]
      simp only [List.mem_append, List.mem_cons, List.mem_singleton]
      refine Or.inl (Or.inr (Or.inr (Or.inr (Or.inr ?_))))
      rw [hd]
      exact List.mem_singleton.mpr rfl

/-- C3 witness: with a succeeding session start and a trace whose second
tick's frame capture raises, the exception is logged and the stop signal
is the final effect; with this source's actual session start, run raises
before the loop. -/
theorem run_signals_worker_stop_on_exit_witness :
    (runEffects ⟨Except.ok (), Except.ok true⟩ 0.1 1000
        [⟨true, Except.ok 1, initialOverlay 1000, 1000, Except.ok true⟩,
         ⟨true, Except.error "camera gone", initialOverlay 1000, 1000.1, Except.ok true⟩]).1.getLast?
      = some Eff.setStopInference ∧
    Eff.closedChannelByRun ∉ (runEffects ⟨Except.ok (), Except.ok true⟩ 0.1 1000
        [⟨true, Except.ok 1, initialOverlay 1000, 1000, Except.ok true⟩,
         ⟨true, Except.error "camera gone", initialOverlay 1000, 1000.1, Except.ok true⟩]).1 ∧
    Eff.loggedException "camera gone" ∈ (runEffects ⟨Except.ok (), Except.ok true⟩ 0.1 1000
        [⟨true, Except.ok 1, initialOverlay 1000, 1000, Except.ok true⟩,
         ⟨true, Except.error "camera gone", initialOverlay 1000, 1000.1, Except.ok true⟩]).1 ∧
    runEffects sourceStartEnv 0.1 1000
        [⟨true, Except.ok 1, initialOverlay 1000, 1000, Except.ok true⟩,
         ⟨true, Except.error "camera gone", initialOverlay 1000, 1000.1, Except.ok true⟩] =
      ([], RunExit.raisedAtStart
        "AttributeError: Settings object has no attribute popup_backend") := by
  have h := run_signals_worker_stop_on_exit ⟨Except.ok (), Except.ok true⟩ true 0.1 1000
    [⟨true, Except.ok 1, initialOverlay 1000, 1000, Except.ok true⟩,
     ⟨true, Except.error "camera gone", initialOverlay 1000, 1000.1, Except.ok true⟩]
  have h2 := run_signals_worker_stop_on_exit sourceStartEnv true 0.1 1000
    [⟨true, Except.ok 1, initialOverlay 1000, 1000, Except.ok true⟩,
     ⟨true, Except.error "camera gone", initialOverlay 1000, 1000.1, Except.ok true⟩]
  refine ⟨(h.2.1 rfl rfl).1, h.1, ?_, h2.2.2 _ rfl⟩
  exact (h.2.1 rfl rfl).2.2 "camera gone" (by decide)

/-! ## C4: session start -/

/-- C4 counterexample: the initial overlay status is not neutral — its kind
is "bad", which the compositor maps to the red "BAD POSTURE" banner, so the
kind is one of Good/Bad, contradicting the claim. -/
theorem initial_overlay_not_neutral_counterexample :
    (initialOverlay 0).kind = "bad" ∧
    kindHeadline (initialOverlay 0).kind = "BAD POSTURE" ∧
    kindColor (initialOverlay 0).kind = (239, 68, 68) ∧
    ¬ ((initialOverlay 0).kind ≠ "good" ∧ (initialOverlay 0).kind ≠ "bad") := by
  refine ⟨rfl, rfl, rfl, fun h => h.2 rfl⟩

/-- C4 (amended): run() builds the initial overlay dict with message
"analyzing...", kind "bad" (rendered as the Bad banner, not a neutral
kind), empty raw output and nextInferenceAt = now, and immediately
attempts to composite and write exactly one frame, before the worker
starts and before any pump-loop effect. In this source, however, session
start raises before any frame is written: show_slouch_popup reads
settings.popup_backend, which is not a Settings field (AttributeError),
and the initial send_feedback_frame call itself binds fps=, a keyword the
function does not declare (TypeError), both outside the try block — so no
initial frame is ever written and run() propagates. Under a session-start
environment in which both calls return, exactly one initial frame is
written, first. -/
theorem run_initial_status_and_single_immediate_write (start : StartEnv) (b : Bool)
    (dt t0 : ℚ) (ticks : List TickIn) :
    (initialOverlay t0).message = "analyzing..." ∧
    (initialOverlay t0).kind = "bad" ∧
    (initialOverlay t0).raw_output = "" ∧
    (initialOverlay t0).next_inference_at = t0 ∧
    settings_fields.contains "popup_backend" = false ∧
    callRaisesTypeError send_feedback_frame_params coordinator_send_kwargs = true ∧
    runEffects sourceStartEnv dt t0 ticks =
      ([], RunExit.raisedAtStart
        "AttributeError: Settings object has no attribute popup_backend") ∧
    (start.popup_open = Except.ok () → start.initial_send = Except.ok b →
      (runEffects start dt t0 ticks).1.take 3 =
        [Eff.openedWindow, Eff.wroteInitial "bad" "analyzing..." 0, Eff.startedWorker] ∧
      (runEffects start dt t0 ticks).1.countP Eff.isInitialWrite = 1) := by
  refine ⟨rfl, rfl, rfl, rfl, by decide, by decide,
    runEffects_of_popup_open_error sourceStartEnv _ dt t0 ticks rfl, ?_⟩
  intro hpo hsi
  constructor
  · rw [runEffects_eq_concat start b dt t0 ticks hpo hsi]
    rfl
  · rw [runEffects_eq_concat start b dt t0 ticks hpo hsi]
    simp only [List.countP_append, List.countP_cons, List.cons_append, List.nil_append]
    have hpump : (pumpLoop dt ticks).1.countP Eff.isInitialWrite = 0 := by
      rw [List.countP_eq_zero]
      intro e he
      rcases pumpLoop_effects_shape dt ticks e he with ⟨i, hi⟩ | ⟨i, c, hi⟩ | hi <;>
        subst hi <;> simp [Eff.isInitialWrite]
    have htail : (match (pumpLoop dt ticks).2 with
        | PumpExit.excCaught d => [Eff.loggedException d]
        | _ => []).countP Eff.isInitialWrite = 0 := by
      split <;> simp [Eff.isInitialWrite]
    simp [Eff.isInitialWrite, hpump, htail, List.countP_cons]

/-- C4 witness: under a succeeding session start with an empty trace,
exactly one initial frame is written right after the window opens; with
this source's actual session start, run raises before writing anything. -/
theorem run_initial_status_and_single_immediate_write_witness :
    (runEffects ⟨Except.ok (), Except.ok true⟩ 0.2 5 []).1.take 3 =
      [Eff.openedWindow, Eff.wroteInitial "bad" "analyzing..." 0, Eff.startedWorker] ∧
    (runEffects ⟨Except.ok (), Except.ok true⟩ 0.2 5 []).1.countP Eff.isInitialWrite = 1 ∧
    runEffects sourceStartEnv 0.2 5 [] =
      ([], RunExit.raisedAtStart
        "AttributeError: Settings object has no attribute popup_backend") := by
  have h := run_initial_status_and_single_immediate_write
    ⟨Except.ok (), Except.ok true⟩ true 0.2 5 []
  exact ⟨(h.2.2.2.2.2.2.2 rfl rfl).1, (h.2.2.2.2.2.2.2 rfl rfl).2, h.2.2.2.2.2.2.1⟩

/-! ## Helper lemmas: inference worker -/

/-- Python str(x or default) yields a nonempty string for a nonempty default. -/
theorem orDefault_ne_empty (o : Option String) (d : String) (hd : d ≠ "") :
    orDefault o d ≠ "" := by
  cases o with
  | none => exact hd
  | some s =>
    show (if s = "" then d else s) ≠ ""
    split
    · exact hd
    · assumption

/-- A worker iteration whose classifier call raises publishes the error
status and still counts as an inference. -/
theorem workerStep_raises (interval : ℚ) (s : WorkerState) (e : WorkerEnv) (d : String)
    (hdue : interval ≤ e.now - s.last) (hframe : e.frameAvailable = true)
    (hout : e.outcome = AnalyzeOutcome.raises d) :
    workerStep interval s e =
      (⟨e.now, ⟨"error", d, "", e.done + interval⟩⟩, WorkerAction.inferred) := by
  unfold workerStep
  rw [if_neg (not_lt.mpr hdue), hframe, hout]
  rfl

/-- A worker iteration that completes normally publishes the coalesced
result fields with next_inference_at = completion time + interval. -/
theorem workerStep_ok (interval : ℚ) (s : WorkerState) (e : WorkerEnv)
    (k m r : Option String)
    (hdue : interval ≤ e.now - s.last) (hframe : e.frameAvailable = true)
    (hout : e.outcome = AnalyzeOutcome.ok k m r) :
    workerStep interval s e =
      (⟨e.now, ⟨orDefault k "error", orDefault m "error", orDefault r "",
        e.done + interval⟩⟩, WorkerAction.inferred) := by
  unfold workerStep
  rw [if_neg (not_lt.mpr hdue), hframe, hout]
  rfl

/-- An early worker iteration only sleeps min(0.05, interval). -/
theorem workerStep_early (interval : ℚ) (s : WorkerState) (e : WorkerEnv)
    (hearly : e.now - s.last < interval) :
    workerStep interval s e = (s, WorkerAction.slept (min 0.05 interval)) := by
  unfold workerStep
  rw [if_pos hearly]

/-- While the stop signal stays clear, the worker loop performs every
iteration, whatever the classifier outcomes are. -/
theorem workerRun_never_stops (interval : ℚ) (s : WorkerState)
    (envs : List (Bool × WorkerEnv)) (h : ∀ p ∈ envs, p.1 = false) :
    (workerRun interval s envs).2.length = envs.length := by
  induction envs generalizing s with
  | nil => rfl
  | cons p ps ih =>
    obtain ⟨b, e⟩ := p
    have hb : b = false := h (b, e) (List.mem_cons_self _ _)
    subst hb
    rw [workerRun, if_neg (by simp)]
    simp only [List.length_cons]
    rw [ih (workerStep interval s e).1 fun q hq => h q (List.mem_cons_of_mem _ hq)]

/-! ## Helper lemmas: pump loop control flow -/

/-- The pump loop's exit reason and streamed-frame count depend only on the
control inputs (should-continue, frame result, write result), not on the
overlay snapshots or clock values. -/
theorem pumpLoop_ignores_status (dt : ℚ) (ticks ticks' : List TickIn)
    (h : List.Forall₂ sameControl ticks ticks') :
    (pumpLoop dt ticks).2 = (pumpLoop dt ticks').2 ∧
    wroteCount (pumpLoop dt ticks).1 = wroteCount (pumpLoop dt ticks').1 := by
  induction h with
  | nil => exact ⟨rfl, rfl⟩
  | @cons a b ts ts' hab hrest ih =>
    obtain ⟨hsc, hframe, hwrite⟩ := hab
    cases hb : b.sc with
    | false => constructor <;> simp [pumpLoop, hsc, hframe, hwrite, hb]
    | true =>
      cases hf : b.frame with
      | error d => constructor <;> simp [pumpLoop, hsc, hframe, hwrite, hb, hf]
      | ok i =>
        cases hw : b.write with
        | error d => constructor <;> simp [pumpLoop, hsc, hframe, hwrite, hb, hf, hw]
        | ok ok =>
          cases hok : ok with
          | false =>
            constructor <;>
              simp [pumpLoop, hsc, hframe, hwrite, hb, hf, hw, hok, wroteCount,
                List.countP_cons, Eff.isFrameWrite]
          | true =>
            have h2 : (pumpLoop dt ts).1.countP Eff.isFrameWrite =
                (pumpLoop dt ts').1.countP Eff.isFrameWrite := ih.2
            constructor
            · simpa [pumpLoop, hsc, hframe, hwrite, hb, hf, hw, hok] using ih.1
            · simp [pumpLoop, hsc, hframe, hwrite, hb, hf, hw, hok, wroteCount,
                List.countP_cons, Eff.isFrameWrite, h2]

/-- With the caller requesting continuation, frames capturing fine, and
every write succeeding, the pump streams one frame per tick and never
exits early. -/
theorem pumpLoop_streams_all (dt : ℚ) (ticks : List TickIn)
    (h : ∀ t ∈ ticks, t.sc = true ∧ (∃ i, t.frame = Except.ok i) ∧
      t.write = Except.ok true) :
    (pumpLoop dt ticks).2 = PumpExit.running ∧
    wroteCount (pumpLoop dt ticks).1 = ticks.length := by
  induction ticks with
  | nil => exact ⟨rfl, rfl⟩
  | cons t ts ih =>
    obtain ⟨hsc, ⟨i, hframe⟩, hwrite⟩ := h t (List.mem_cons_self _ _)
    have ihr := ih fun u hu => h u (List.mem_cons_of_mem _ hu)
    have h2 : (pumpLoop dt ts).1.countP Eff.isFrameWrite = ts.length := ihr.2
    constructor
    · simpa [pumpLoop, hsc, hframe, hwrite] using ihr.1
    · simp [pumpLoop, hsc, hframe, hwrite, wroteCount, List.countP_cons,
        Eff.isFrameWrite, h2]

/-! ## C2: classifier failures are absorbed, but the pump write is broken -/

/-- C2 (code bug): a raising classifier call is converted into an error
overlay status with the exception description; a malformed result (missing
or empty kind) is published as kind "error" with a nonempty message; the
worker loop runs every scheduled iteration while the stop signal is clear,
whatever the outcomes; and the pump loop's exit point and streamed-frame
count are independent of the published statuses — with all writes
returning True and shouldContinue true it would stream one frame per tick
without exiting, which is the claimed (and clearly intended) behavior.
This source however breaks the pump independently of the classifier: the
coordinator passes fps= to send_feedback_frame, which does not declare
that keyword, so every write raises TypeError, and the very first tick
exits through the exception path with zero frames streamed even while
shouldContinue() is true. -/
theorem classifier_failure_absorbed (interval : ℚ) (s : WorkerState)
    (e eok : WorkerEnv) (d : String) (k m r : Option String)
    (envs : List (Bool × WorkerEnv)) (dt : ℚ) (ticks ticks' : List TickIn)
    (i : ℕ) (ov : Overlay) (now : ℚ) :
    (interval ≤ e.now - s.last → e.frameAvailable = true →
      e.outcome = AnalyzeOutcome.raises d →
      (workerStep interval s e).1.overlay = ⟨"error", d, "", e.done + interval⟩ ∧
      (workerStep interval s e).2 = WorkerAction.inferred) ∧
    (interval ≤ eok.now - s.last → eok.frameAvailable = true →
      eok.outcome = AnalyzeOutcome.ok k m r → (k = none ∨ k = some "") →
      (workerStep interval s eok).1.overlay.kind = "error" ∧
      (workerStep interval s eok).1.overlay.message ≠ "") ∧
    ((∀ p ∈ envs, p.1 = false) →
      (workerRun interval s envs).2.length = envs.length) ∧
    (List.Forall₂ sameControl ticks ticks' →
      (pumpLoop dt ticks).2 = (pumpLoop dt ticks').2 ∧
      wroteCount (pumpLoop dt ticks).1 = wroteCount (pumpLoop dt ticks').1) ∧
    ((∀ t ∈ ticks, t.sc = true ∧ (∃ j, t.frame = Except.ok j) ∧
        t.write = Except.ok true) →
      (pumpLoop dt ticks).2 = PumpExit.running ∧
      wroteCount (pumpLoop dt ticks).1 = ticks.length) ∧
    callRaisesTypeError send_feedback_frame_params coordinator_send_kwargs = true ∧
    (pumpLoop dt (⟨true, Except.ok i, ov, now, sourceWriteResult⟩ :: ticks) =
      ([Eff.storedFrame i], PumpExit.excCaught
        "TypeError: send_feedback_frame got an unexpected keyword argument fps") ∧
      wroteCount [Eff.storedFrame i] = 0) := by
  refine ⟨?_, ?_, workerRun_never_stops interval s envs,
    pumpLoop_ignores_status dt ticks ticks', pumpLoop_streams_all dt ticks,
    by decide, ?_, by simp [wroteCount, Eff.isFrameWrite]⟩
  · intro hdue hframe hout
    rw [workerStep_raises interval s e d hdue hframe hout]
    exact ⟨rfl, rfl⟩
  · intro hdue hframe hout hk
    rw [workerStep_ok interval s eok k m r hdue hframe hout]
    constructor
    · rcases hk with hk | hk <;> subst hk <;> rfl
    · exact orDefault_ne_empty m "error" (by decide)
  · rw [pumpLoop]
    simp [sourceWriteResult]

/-- C2 witness: a raising call at a due instant, a malformed result, a
two-iteration never-stopped loop, two control-equal traces with different
statuses, an all-success three-tick pump trace, and the failing input: a
first tick with shouldContinue true whose write raises the fps TypeError,
exiting the loop with zero frames streamed. -/
theorem classifier_failure_absorbed_witness :
    ((workerStep 1 ⟨0, initialOverlay 0⟩
        ⟨1000, true, AnalyzeOutcome.raises "RuntimeError: boom", 1000.2⟩).1.overlay =
      ⟨"error", "RuntimeError: boom", "", 1001.2⟩) ∧
    ((workerStep 1 ⟨0, initialOverlay 0⟩
        ⟨1000, true, AnalyzeOutcome.ok none (some "no kind") none, 1000.2⟩).1.overlay.kind =
      "error") ∧
    ((workerRun 1 ⟨0, initialOverlay 0⟩
        [(false, ⟨1000, true, AnalyzeOutcome.raises "E: x", 1000.2⟩),
         (false, ⟨1001, true, AnalyzeOutcome.raises "E: y", 1001.2⟩)]).2.length = 2) ∧
    ((pumpLoop 0.1 [⟨true, Except.ok 1, initialOverlay 0, 5, Except.ok true⟩,
        ⟨true, Except.ok 2, ⟨"good", "", "", 6⟩, 5.1, Except.ok true⟩,
        ⟨true, Except.ok 3, ⟨"error", "E", "", 7⟩, 5.2, Except.ok true⟩]).2 =
      (pumpLoop 0.1 [⟨true, Except.ok 1, ⟨"error", "E", "", 9⟩, 7, Except.ok true⟩,
        ⟨true, Except.ok 2, ⟨"bad", "B", "", 6⟩, 5.1, Except.ok true⟩,
        ⟨true, Except.ok 3, ⟨"good", "", "", 7⟩, 5.2, Except.ok true⟩]).2) ∧
    ((pumpLoop 0.1 [⟨true, Except.ok 1, initialOverlay 0, 5, Except.ok true⟩,
        ⟨true, Except.ok 2, ⟨"good", "", "", 6⟩, 5.1, Except.ok true⟩,
        ⟨true, Except.ok 3, ⟨"error", "E", "", 7⟩, 5.2, Except.ok true⟩]).2 =
      PumpExit.running) ∧
    callRaisesTypeError send_feedback_frame_params coordinator_send_kwargs = true ∧
    pumpLoop 0.1 [⟨true, Except.ok 9, initialOverlay 0, 5, sourceWriteResult⟩] =
      ([Eff.storedFrame 9], PumpExit.excCaught
        "TypeError: send_feedback_frame got an unexpected keyword argument fps") := by
  have h := classifier_failure_absorbed 1 ⟨0, initialOverlay 0⟩
    ⟨1000, true, AnalyzeOutcome.raises "RuntimeError: boom", 1000.2⟩
    ⟨1000, true, AnalyzeOutcome.ok none (some "no kind") none, 1000.2⟩
    "RuntimeError: boom" none (some "no kind") none
    [(false, ⟨1000, true, AnalyzeOutcome.raises "E: x", 1000.2⟩),
     (false, ⟨1001, true, AnalyzeOutcome.raises "E: y", 1001.2⟩)]
    0.1
    [⟨true, Except.ok 1, initialOverlay 0, 5, Except.ok true⟩,
     ⟨true, Except.ok 2, ⟨"good", "", "", 6⟩, 5.1, Except.ok true⟩,
     ⟨true, Except.ok 3, ⟨"error", "E", "", 7⟩, 5.2, Except.ok true⟩]
    [⟨true, Except.ok 1, ⟨"error", "E", "", 9⟩, 7, Except.ok true⟩,
     ⟨true, Except.ok 2, ⟨"bad", "B", "", 6⟩, 5.1, Except.ok true⟩,
     ⟨true, Except.ok 3, ⟨"good", "", "", 7⟩, 5.2, Except.ok true⟩]
    9 (initialOverlay 0) 5
  have h2 := classifier_failure_absorbed 1 ⟨0, initialOverlay 0⟩
    ⟨1000, true, AnalyzeOutcome.raises "RuntimeError: boom", 1000.2⟩
    ⟨1000, true, AnalyzeOutcome.ok none (some "no kind") none, 1000.2⟩
    "RuntimeError: boom" none (some "no kind") none [] 0.1 [] []
    9 (initialOverlay 0) 5
  refine ⟨?_, ?_, ?_, ?_, ?_, h.2.2.2.2.2.1, h2.2.2.2.2.2.2.1⟩
  · have hh := (h.1 (by norm_num) rfl rfl).1
    rw [hh]
    simp only [Overlay.mk.injEq]
    norm_num
  · exact (h.2.1 (by norm_num) rfl rfl (Or.inl rfl)).1
  · exact h.2.2.1 (by decide)
  · exact (h.2.2.2.1 (by refine List.Forall₂.cons ?_ (List.Forall₂.cons ?_
      (List.Forall₂.cons ?_ List.Forall₂.nil)) <;> exact ⟨rfl, rfl, rfl⟩)).1
  · refine (h.2.2.2.2.1 ?_).1
    intro t ht
    rcases List.mem_cons.mp ht with h1 | ht
    · subst h1; exact ⟨rfl, ⟨1, rfl⟩, rfl⟩
    rcases List.mem_cons.mp ht with h1 | ht
    · subst h1; exact ⟨rfl, ⟨2, rfl⟩, rfl⟩
    rcases List.mem_cons.mp ht with h1 | ht
    · subst h1; exact ⟨rfl, ⟨3, rfl⟩, rfl⟩
    · simp at ht

/-! ## C6: worker cadence -/

/-- C6 counterexample: with a 1s interval, an inference starting at t=1000
and completing at t=1000.5 publishes next_inference_at = 1001.5, yet the
iteration at t=1001 already invokes the classifier — only 0.5s after the
previous inference completed and before the published next time, because
the gate compares against the previous START time. -/
theorem worker_cadence_counterexample :
    ((workerStep 1 ⟨0, initialOverlay 0⟩
        ⟨1000, true, AnalyzeOutcome.ok (some "good") (some "ok") none, 1000.5⟩).1.overlay.next_inference_at
      = 1001.5) ∧
    ((workerStep 1 (workerStep 1 ⟨0, initialOverlay 0⟩
        ⟨1000, true, AnalyzeOutcome.ok (some "good") (some "ok") none, 1000.5⟩).1
        ⟨1001, true, AnalyzeOutcome.ok (some "good") (some "ok") none, 1001.3⟩).2
      = WorkerAction.inferred) ∧
    (1001 : ℚ) - 1000.5 < 1 ∧ (1001 : ℚ) < 1001.5 := by
  have hstep1 := workerStep_ok 1 ⟨0, initialOverlay 0⟩
    ⟨1000, true, AnalyzeOutcome.ok (some "good") (some "ok") none, 1000.5⟩
    (some "good") (some "ok") none (by norm_num) rfl rfl
  have hlast : (workerStep 1 ⟨0, initialOverlay 0⟩
      ⟨1000, true, AnalyzeOutcome.ok (some "good") (some "ok") none, 1000.5⟩).1.last = 1000 := by
    rw [hstep1]
  refine ⟨?_, ?_, by norm_num, by norm_num⟩
  · rw [hstep1]
    norm_num
  · rw [workerStep_ok 1 _
      ⟨1001, true, AnalyzeOutcome.ok (some "good") (some "ok") none, 1001.3⟩
      (some "good") (some "ok") none (by rw [hlast]; norm_num) rfl rfl]

/-- C6 (amended): the worker invokes the classifier only when at least the
configured interval has elapsed since the previous inference attempt
started (not completed); when less time has elapsed it sleeps
min(0.05, interval), which is at most 50ms, and re-checks; and each
completed inference replaces the overlay with the coalesced result and
next_inference_at = completion time + interval. -/
theorem worker_cadence_gated_by_start (interval : ℚ) (s : WorkerState) (e : WorkerEnv)
    (k m r : Option String) :
    ((workerStep interval s e).2 = WorkerAction.inferred → interval ≤ e.now - s.last) ∧
    (e.now - s.last < interval →
      workerStep interval s e = (s, WorkerAction.slept (min 0.05 interval)) ∧
      min 0.05 interval ≤ 0.05) ∧
    (interval ≤ e.now - s.last → e.frameAvailable = true →
      e.outcome = AnalyzeOutcome.ok k m r →
      (workerStep interval s e).1 =
        ⟨e.now, ⟨orDefault k "error", orDefault m "error", orDefault r "",
          e.done + interval⟩⟩) := by
  refine ⟨?_, ?_, ?_⟩
  · intro hact
    rcases lt_or_le (e.now - s.last) interval with hlt | hle
    · rw [workerStep_early interval s e hlt] at hact
      exact WorkerAction.noConfusion hact
    · exact hle
  · intro hearly
    exact ⟨workerStep_early interval s e hearly, min_le_left _ _⟩
  · intro hdue hframe hout
    rw [workerStep_ok interval s e k m r hdue hframe hout]

/-- C6 witness: a not-yet-due iteration sleeps the bounded amount, and a due
iteration publishes the classifier result with next = completion + 1. -/
theorem worker_cadence_gated_by_start_witness :
    (workerStep 1 ⟨0, initialOverlay 0⟩ ⟨0.5, true, AnalyzeOutcome.raises "E", 0.6⟩ =
      (⟨0, initialOverlay 0⟩, WorkerAction.slept (min 0.05 1))) ∧
    min (0.05 : ℚ) 1 ≤ 0.05 ∧
    (workerStep 1 ⟨0, initialOverlay 0⟩
        ⟨2, true, AnalyzeOutcome.ok (some "bad") (some "sit up") (some "Yes"), 2.4⟩).1 =
      ⟨2, ⟨"bad", "sit up", "Yes", 3.4⟩⟩ := by
  have h1 := worker_cadence_gated_by_start 1 ⟨0, initialOverlay 0⟩
    ⟨0.5, true, AnalyzeOutcome.raises "E", 0.6⟩ none none none
  have h2 := worker_cadence_gated_by_start 1 ⟨0, initialOverlay 0⟩
    ⟨2, true, AnalyzeOutcome.ok (some "bad") (some "sit up") (some "Yes"), 2.4⟩
    (some "bad") (some "sit up") (some "Yes")
  refine ⟨(h1.2.1 (by norm_num)).1, (h1.2.1 (by norm_num)).2, ?_⟩
  rw [h2.2.2 (by norm_num) rfl rfl]
  simp only [WorkerState.mk.injEq, Overlay.mk.injEq, orDefault]
  norm_num
  decide

/-! ## C5: countdown rendering -/

/-- Frame writes emitted by the pump always carry the clamped countdown
max(0, next_inference_at - now), hence a nonnegative value. -/
theorem pumpLoop_wrote_nonneg (dt : ℚ) (ticks : List TickIn) (i : ℕ) (c : ℚ)
    (h : Eff.wrote i c ∈ (pumpLoop dt ticks).1) : 0 ≤ c := by
  induction ticks with
  | nil => simp [pumpLoop] at h
  | cons t ts ih =>
    by_cases hsc : t.sc
    · cases hf : t.frame with
      | error d =>
        rw [pumpLoop] at h
        simp [hsc, hf] at h
      | ok j =>
        cases hw : t.write with
        | error d =>
          rw [pumpLoop] at h
          simp [hsc, hf, hw] at h
        | ok ok =>
          cases hok : ok with
          | false =>
            rw [pumpLoop] at h
            simp [hsc, hf, hw, hok] at h
            rcases h with ⟨-, rfl⟩
            exact le_max_left _ _
          | true =>
            rw [pumpLoop] at h
            simp [hsc, hf, hw, hok] at h
            rcases h with ⟨-, rfl⟩ | h
            · exact le_max_left _ _
            · exact ih h
    · rw [pumpLoop] at h
      simp [hsc] at h

/-- C5 counterexample: called directly with a negative countdown, the
compositor renders it verbatim — "Next: -5.0s", with the negative flag set —
because the clamping lives in the coordinator, not in the compositor. -/
theorem compositor_negative_countdown_counterexample :
    (render_feedback_frame ⟨100, 100⟩ "good" "" none (-5) (600, 600)).countdown_text =
      "Next: -5.0s" ∧
    (render_feedback_frame ⟨100, 100⟩ "good" "" none (-5) (600, 600)).countdown_label.neg =
      true := by
  have hr : round ((5 : ℚ) * 10) = 50 := by
    rw [round_eq]
    norm_num
  have hneg : decide ((-5 : ℚ) < 0) = true := decide_eq_true (by norm_num)
  have hlabel : formatFixed1 (-5) = ⟨true, 5, 0⟩ := by
    simp [formatFixed1, hr, hneg]
  constructor
  · show countdownTextOf (-5) = "Next: -5.0s"
    simp only [countdownTextOf, hlabel]
    rfl
  · show (formatFixed1 (-5)).neg = true
    rw [hlabel]

/-- C5 (amended): the compositor formats the countdown value it is given
verbatim, but the coordinator passes max(0, nextInferenceAt - now), so
every frame the pump writes carries a nonnegative countdown, the rendered
label is never negative, and an already-elapsed deadline renders exactly
as "Next: 0.0s". -/
theorem pump_countdown_clamped_nonnegative (image : Frame) (k m : String)
    (r : Option String) (sz : ℕ × ℕ) (next_at now : ℚ) (dt : ℚ)
    (ticks : List TickIn) (i : ℕ) (c : ℚ) :
    (render_feedback_frame image k m r (max 0 (next_at - now)) sz).countdown_label.neg
      = false ∧
    (next_at - now ≤ 0 →
      (render_feedback_frame image k m r (max 0 (next_at - now)) sz).countdown_text =
        "Next: 0.0s") ∧
    (Eff.wrote i c ∈ (pumpLoop dt ticks).1 → 0 ≤ c) := by
  refine ⟨?_, ?_, pumpLoop_wrote_nonneg dt ticks i c⟩
  · show (formatFixed1 (max 0 (next_at - now))).neg = false
    unfold formatFixed1
    exact decide_eq_false (not_lt.mpr (le_max_left 0 _))
  · intro hle
    rw [max_eq_left hle]
    show countdownTextOf 0 = "Next: 0.0s"
    have hlabel : formatFixed1 0 = ⟨false, 0, 0⟩ := by
      simp [formatFixed1]
    simp only [countdownTextOf, hlabel]
    rfl

/-- C5 witness: an elapsed deadline (next 3, now 5) renders as
"Next: 0.0s" with a non-negative label, and a concrete pump tick's write
carries countdown max(0, 9-4) ≥ 0. -/
theorem pump_countdown_clamped_nonnegative_witness :
    (render_feedback_frame ⟨10, 10⟩ "bad" "" none (max 0 ((3 : ℚ) - 5)) (600, 600)).countdown_label.neg
      = false ∧
    (render_feedback_frame ⟨10, 10⟩ "bad" "" none (max 0 ((3 : ℚ) - 5)) (600, 600)).countdown_text
      = "Next: 0.0s" ∧
    (0 : ℚ) ≤ max 0 ((9 : ℚ) - 4) := by
  have h := pump_countdown_clamped_nonnegative ⟨10, 10⟩ "bad" "" none (600, 600) 3 5 0.1
    [⟨true, Except.ok 7, ⟨"bad", "", "", 9⟩, 4, Except.ok true⟩] 7 (max 0 ((9 : ℚ) - 4))
  refine ⟨h.1, h.2.1 (by norm_num), h.2.2 ?_⟩
  rw [pumpLoop]
  simp

/-! ## Helper lemmas: Python split/join/strip -/

/-- Characters of a split word come from the input or the accumulator. -/
theorem splitWsAux_subset (s : List Char) :
    ∀ cur w, w ∈ splitWsAux s cur → ∀ a ∈ w, a ∈ s ∨ a ∈ cur := by
  induction s with
  | nil =>
    intro cur w hw a ha
    unfold splitWsAux at hw
    split at hw
    · simp at hw
    · simp at hw
      subst hw
      exact Or.inr (List.mem_reverse.mp ha)
  | cons c cs ih =>
    intro cur w hw a ha
    unfold splitWsAux at hw
    split at hw
    · split at hw
      · rcases ih [] w hw a ha with h | h
        · exact Or.inl (List.mem_cons_of_mem _ h)
        · simp at h
      · rcases List.mem_cons.mp hw with hw | hw
        · subst hw
          exact Or.inr (List.mem_reverse.mp ha)
        · rcases ih [] w hw a ha with h | h
          · exact Or.inl (List.mem_cons_of_mem _ h)
          · simp at h
    · rcases ih (c :: cur) w hw a ha with h | h
      · exact Or.inl (List.mem_cons_of_mem _ h)
      · rcases List.mem_cons.mp h with h | h
        · subst h
          exact Or.inl (List.mem_cons_self _ _)
        · exact Or.inr h

/-- Split words contain no whitespace. -/
theorem splitWsAux_nospace (s : List Char) :
    ∀ cur, (∀ a ∈ cur, pythonIsSpace a = false) →
      ∀ w ∈ splitWsAux s cur, ∀ a ∈ w, pythonIsSpace a = false := by
  induction s with
  | nil =>
    intro cur hcur w hw a ha
    unfold splitWsAux at hw
    split at hw
    · simp at hw
    · simp at hw
      subst hw
      exact hcur a (List.mem_reverse.mp ha)
  | cons c cs ih =>
    intro cur hcur w hw a ha
    unfold splitWsAux at hw
    split at hw
    · split at hw
      · exact ih [] (by simp) w hw a ha
      · rcases List.mem_cons.mp hw with hw | hw
        · subst hw
          exact hcur a (List.mem_reverse.mp ha)
        · exact ih [] (by simp) w hw a ha
    · rename_i hc
      simp only [Bool.not_eq_true] at hc
      refine ih (c :: cur) ?_ w hw a ha
      intro b hb
      rcases List.mem_cons.mp hb with hb | hb
      · subst hb
        exact hc
      · exact hcur b hb

/-- Split words are nonempty. -/
theorem splitWsAux_ne_nil (s : List Char) :
    ∀ cur w, w ∈ splitWsAux s cur → w ≠ [] := by
  induction s with
  | nil =>
    intro cur w hw
    unfold splitWsAux at hw
    split at hw
    · simp at hw
    · simp at hw
      subst hw
      rename_i hcur
      simpa using hcur
  | cons c cs ih =>
    intro cur w hw
    unfold splitWsAux at hw
    split at hw
    · split at hw
      · exact ih [] w hw
      · rcases List.mem_cons.mp hw with hw | hw
        · subst hw
          rename_i hcur
          simpa using hcur
        · exact ih [] w hw
    · exact ih (c :: cur) w hw

/-- Characters of a " ".join are spaces or word characters. -/
theorem joinSpace_mem (ws : List (List Char)) :
    ∀ a ∈ joinSpace ws, a = ' ' ∨ ∃ w ∈ ws, a ∈ w := by
  induction ws with
  | nil =>
    intro a ha
    simp [joinSpace] at ha
  | cons w ws ih =>
    intro a ha
    cases ws with
    | nil =>
      simp only [joinSpace] at ha
      exact Or.inr ⟨w, by simp, ha⟩
    | cons w' ws' =>
      simp only [joinSpace] at ha
      rcases List.mem_append.mp ha with h | h
      · exact Or.inr ⟨w, List.mem_cons_self _ _, h⟩
      · rcases List.mem_cons.mp h with h | h
        · exact Or.inl h
        · rcases ih a h with h | ⟨u, hu, hau⟩
          · exact Or.inl h
          · exact Or.inr ⟨u, List.mem_cons_of_mem _ hu, hau⟩

/-- The head of a " ".join of nonempty words is a word character. -/
theorem joinSpace_head_mem (ws : List (List Char)) (hne : ∀ w ∈ ws, w ≠ []) :
    ∀ a ∈ (joinSpace ws).head?, ∃ w ∈ ws, a ∈ w := by
  cases ws with
  | nil =>
    intro a ha
    simp [joinSpace] at ha
  | cons w ws' =>
    intro a ha
    cases ws' with
    | nil =>
      simp only [joinSpace] at ha
      exact ⟨w, by simp, List.mem_of_mem_head? ha⟩
    | cons w'' ws'' =>
      simp only [joinSpace] at ha
      cases w with
      | nil => exact absurd rfl (hne [] (List.mem_cons_self _ _))
      | cons x xs =>
        simp only [List.cons_append, List.head?_cons, Option.mem_def,
          Option.some.injEq] at ha
        subst ha
        exact ⟨x :: xs, List.mem_cons_self _ _, List.mem_cons_self _ _⟩

/-- A whitespace-free list has no two adjacent spaces. -/
theorem chain'_of_nospace (w : List Char) (h : ∀ a ∈ w, pythonIsSpace a = false) :
    w.Chain' (fun a b => ¬(a = ' ' ∧ b = ' ')) := by
  induction w with
  | nil => simp
  | cons x xs ih =>
    cases xs with
    | nil => simp
    | cons y ys =>
      rw [List.chain'_cons]
      constructor
      · rintro ⟨hx, -⟩
        subst hx
        have hsp := h ' ' (List.mem_cons_self _ _)
        simp [pythonIsSpace] at hsp
      · exact ih fun a ha => h a (List.mem_cons_of_mem _ ha)

/-- " ".join of nonempty whitespace-free words has no two adjacent spaces. -/
theorem joinSpace_chain' (ws : List (List Char))
    (hne : ∀ w ∈ ws, w ≠ [])
    (hsp : ∀ w ∈ ws, ∀ a ∈ w, pythonIsSpace a = false) :
    (joinSpace ws).Chain' (fun a b => ¬(a = ' ' ∧ b = ' ')) := by
  induction ws with
  | nil => simp [joinSpace]
  | cons w ws' ih =>
    cases ws' with
    | nil =>
      simp only [joinSpace]
      exact chain'_of_nospace w (hsp w (List.mem_cons_self _ _))
    | cons w'' ws'' =>
      simp only [joinSpace]
      rw [List.chain'_append]
      refine ⟨chain'_of_nospace w (hsp w (List.mem_cons_self _ _)), ?_, ?_⟩
      · rw [List.chain'_cons']
        refine ⟨?_, ih (fun u hu => hne u (List.mem_cons_of_mem _ hu))
          (fun u hu => hsp u (List.mem_cons_of_mem _ hu))⟩
        rintro y hy ⟨-, hy'⟩
        obtain ⟨u, hu, hyu⟩ := joinSpace_head_mem (w'' :: ws'')
          (fun v hv => hne v (List.mem_cons_of_mem _ hv)) y hy
        have hspu := hsp u (List.mem_cons_of_mem _ hu) y hyu
        subst hy'
        simp [pythonIsSpace] at hspu
      · rintro x hx y hy ⟨hx', -⟩
        have hxw : x ∈ w := List.mem_of_mem_getLast? hx
        have hspx := hsp w (List.mem_cons_self _ _) x hxw
        subst hx'
        simp [pythonIsSpace] at hspx

/-- dropWhile yields a suffix (core lemma restated for our char lists). -/
theorem dropWhile_isSuffix (p : Char → Bool) (l : List Char) : l.dropWhile p <:+ l := by
  induction l with
  | nil => exact List.suffix_rfl
  | cons x xs ih =>
    rw [List.dropWhile]
    split
    · exact ih.trans (List.suffix_cons x xs)
    · exact List.suffix_rfl

/-- Python str.strip() yields a contiguous infix of its input. -/
theorem stripWs_contiguous (s : List Char) : stripWs s <:+: s := by
  unfold stripWs
  have h1 : s.dropWhile (fun c => pythonIsSpace c) <:+ s :=
    dropWhile_isSuffix _ s
  have h2 : ((s.dropWhile fun c => pythonIsSpace c).reverse.dropWhile fun c =>
      pythonIsSpace c) <:+ (s.dropWhile fun c => pythonIsSpace c).reverse :=
    dropWhile_isSuffix _ _
  have h3 : ((s.dropWhile fun c => pythonIsSpace c).reverse.dropWhile fun c =>
      pythonIsSpace c).reverse <+: (s.dropWhile fun c => pythonIsSpace c) := by
    have := List.reverse_prefix.mpr h2
    simpa using this
  exact h3.isInfix.trans h1.isInfix

/-- Characters survive stripWs only if present in the input. -/
theorem stripWs_subset (s : List Char) : ∀ a ∈ stripWs s, a ∈ s :=
  fun a ha => (stripWs_contiguous s).sublist.subset ha

/-- Characters of the cleaned message: a space, or an input character that
is not one of the known emoji. -/
theorem stripKnownEmojiTofu_mem (text : List Char) :
    ∀ a ∈ stripKnownEmojiTofu text, a = ' ' ∨ (a ∈ text ∧ a ∉ badChars) := by
  intro a ha
  have ha' := stripWs_subset _ a ha
  rcases joinSpace_mem _ a ha' with h | ⟨w, hw, haw⟩
  · exact Or.inl h
  · rcases splitWsAux_subset _ [] w hw a haw with h | h
    · have hf := List.mem_filter.mp h
      refine Or.inr ⟨hf.1, fun hmem => ?_⟩
      have hdec := decide_eq_true hmem
      simp [List.contains, List.elem_eq_mem, hdec] at hf
    · simp at h

/-- Whitespace in the cleaned message is only the single plain space. -/
theorem stripKnownEmojiTofu_nospace (text : List Char) :
    ∀ a ∈ stripKnownEmojiTofu text, pythonIsSpace a = true → a = ' ' := by
  intro a ha hsp
  have ha' := stripWs_subset _ a ha
  rcases joinSpace_mem _ a ha' with h | ⟨w, hw, haw⟩
  · exact h
  · have := splitWsAux_nospace _ [] (by simp) w hw a haw
    rw [this] at hsp
    exact absurd hsp (by simp)

/-- The cleaned message has no two adjacent spaces. -/
theorem stripKnownEmojiTofu_chain (text : List Char) :
    (stripKnownEmojiTofu text).Chain' (fun a b => ¬(a = ' ' ∧ b = ' ')) := by
  have hjoin := joinSpace_chain'
    (splitWs (text.filter fun c => !(badChars.contains c)))
    (fun w hw => splitWsAux_ne_nil _ [] w hw)
    (fun w hw => splitWsAux_nospace _ [] (by simp) w hw)
  exact hjoin.infix (stripWs_contiguous _)

/-- All characters of all wrapped lines satisfy any predicate holding for
the space character, all word characters, the current line, and the
accumulated lines. -/
theorem wrapLoop_chars (mc : ℕ) (Q : Char → Prop) (hQ : Q ' ') :
    ∀ (words : List (List Char)) (cur : List Char) (lines : List (List Char)),
      (∀ w ∈ words, ∀ a ∈ w, Q a) → (∀ a ∈ cur, Q a) →
      (∀ l ∈ lines, ∀ a ∈ l, Q a) →
      ∀ l ∈ wrapLoop mc words cur lines, ∀ a ∈ l, Q a := by
  intro words
  induction words with
  | nil =>
    intro cur lines hw hc hl l hl' a ha
    unfold wrapLoop at hl'
    split at hl'
    · exact hl l (List.mem_reverse.mp hl') a ha
    · rcases List.mem_cons.mp (List.mem_reverse.mp hl') with h | h
      · subst h
        exact hc a ha
      · exact hl l h a ha
  | cons word rest ih =>
    intro cur lines hw hc hl l hl' a ha
    unfold wrapLoop at hl'
    split at hl'
    · refine ih _ _ (fun w hw' => hw w (List.mem_cons_of_mem _ hw')) ?_ hl l hl' a ha
      intro b hb
      split at hb
      · exact hw word (List.mem_cons_self _ _) b hb
      · rcases List.mem_append.mp hb with h | h
        · exact hc b h
        · rcases List.mem_cons.mp h with h | h
          · subst h
            exact hQ
          · exact hw word (List.mem_cons_self _ _) b h
    · refine ih _ _ (fun w hw' => hw w (List.mem_cons_of_mem _ hw'))
        (fun b hb => hw word (List.mem_cons_self _ _) b hb) ?_ l hl' a ha
      intro l' hl'' b hb
      split at hl''
      · exact hl l' hl'' b hb
      · rcases List.mem_cons.mp hl'' with h | h
        · subst h
          exact hc b hb
        · exact hl l' h b hb

/-- Every rendered line's characters satisfy any predicate that holds for
the space and for all characters of the cleaned message. -/
theorem messageLines_chars (message : String) (Q : Char → Prop) (hQ : Q ' ')
    (hm : ∀ a ∈ msgClean message, Q a) :
    ∀ l ∈ messageLines message, ∀ a ∈ l, Q a := by
  intro l hl a ha
  simp only [messageLines] at hl
  split at hl
  · simp at hl
  · split at hl
    · have hsub := List.take_subset 2 _ hl
      refine wrapLoop_chars 45 Q hQ (splitWs (msgClean message)) [] [] ?_
        (by simp) (by simp) l hsub a ha
      intro w hw b hb
      rcases splitWsAux_subset _ [] w hw b hb with h | h
      · exact hm b h
      · simp at h
    · simp only [List.mem_singleton] at hl
      subst hl
      exact hm a ha

/-! ## C8: message wrapping bounds -/

/-- C8: the compositor renders at most 2 message lines; an empty or
whitespace-only (hence empty after cleaning) message produces no line; a
message of at most 45 cleaned characters is rendered as the single cleaned
line. The rendering is a total function, so no input raises. -/
theorem message_wrapped_to_two_lines (message : String) :
    (messageLines message).length ≤ 2 ∧
    (msgClean message = [] → messageLines message = []) ∧
    ((msgClean message).length ≤ 45 →
      ∀ l ∈ messageLines message, l = msgClean message) := by
  refine ⟨?_, ?_, ?_⟩
  · simp only [messageLines]
    split
    · simp
    · split
      · exact List.length_take_le _ _
      · simp
  · intro h
    simp only [messageLines]
    rw [if_pos h]
  · intro h l hl
    simp only [messageLines] at hl
    split at hl
    · simp at hl
    · split at hl
      · omega
      · simp only [List.mem_singleton] at hl
        exact hl

/-- C8 witness: a 90-character message yields at most two lines, a
whitespace-only message yields none, and a short message is its own single
line. -/
theorem message_wrapped_to_two_lines_witness :
    (messageLines "sit up straight and relax your shoulders while keeping the monitor at eye level ok").length ≤ 2 ∧
    messageLines "   " = [] ∧
    (∀ l ∈ messageLines "sit up", l = msgClean "sit up") := by
  have h1 := message_wrapped_to_two_lines
    "sit up straight and relax your shoulders while keeping the monitor at eye level ok"
  have h2 := message_wrapped_to_two_lines "   "
  have h3 := message_wrapped_to_two_lines "sit up"
  exact ⟨h1.1, h2.2.1 (by decide), h3.2.2 (by decide)⟩

/-! ## C9: emoji stripping and whitespace collapsing -/

/-- C9: each known emoji character (including the variation selector) is
removed before rendering — no cleaned-message character and no rendered
message line contains one — and whitespace is collapsed: any whitespace
character remaining is a single plain space and no two spaces are
adjacent. -/
theorem emoji_stripped_and_whitespace_collapsed (message : String) (c : Char) :
    (c ∈ badChars → c ∉ msgClean message) ∧
    (c ∈ badChars → ∀ l ∈ messageLines message, c ∉ l) ∧
    (∀ a ∈ msgClean message, pythonIsSpace a = true → a = ' ') ∧
    (msgClean message).Chain' (fun a b => ¬(a = ' ' ∧ b = ' ')) := by
  have hnotsp : ∀ b ∈ badChars, b ≠ ' ' := by decide
  have h1 : c ∈ badChars → c ∉ msgClean message := by
    intro hc hmem
    rcases stripKnownEmojiTofu_mem _ c hmem with h | ⟨-, h⟩
    · exact hnotsp c hc h
    · exact h hc
  refine ⟨h1, ?_, stripKnownEmojiTofu_nospace _, stripKnownEmojiTofu_chain _⟩
  intro hc l hl hmem
  have := messageLines_chars message (fun a => a ≠ c)
    (fun h => hnotsp c hc h.symm) (fun a ha hac => h1 hc (hac ▸ ha)) l hl c hmem
  exact this rfl

/-- C9 witness: an emoji-and-double-space message keeps no emoji in the
cleaned message or its rendered lines, with whitespace collapsed. -/
theorem emoji_stripped_and_whitespace_collapsed_witness :
    ('✅' ∉ msgClean "✅ good  posture") ∧
    (∀ l ∈ messageLines "✅ good  posture", '✅' ∉ l) ∧
    (∀ a ∈ msgClean "✅ good  posture", pythonIsSpace a = true → a = ' ') ∧
    (msgClean "✅ good  posture").Chain' (fun a b => ¬(a = ' ' ∧ b = ' ')) := by
  have h := emoji_stripped_and_whitespace_collapsed "✅ good  posture" '✅'
  exact ⟨h.1 (by decide), h.2.1 (by decide), h.2.2.1, h.2.2.2⟩

/-! ## Helper lemmas: PIL thumbnail geometry -/

/-- round_aspect never returns less than 1. -/
theorem round_aspect_one_le (q : ℚ) (key : ℤ → ℚ) : 1 ≤ round_aspect q key :=
  le_max_right _ 1

/-- round_aspect stays below any integer bound ≥ 1 dominating its input. -/
theorem round_aspect_le_of_le (q : ℚ) (key : ℤ → ℚ) (m : ℤ) (h1 : 1 ≤ m)
    (hq : q ≤ m) : round_aspect q key ≤ m := by
  have hf : ⌊q⌋ ≤ m := by
    have := Int.floor_le_floor hq
    simpa using this
  have hc : ⌈q⌉ ≤ m := Int.ceil_le.mpr (by exact_mod_cast hq)
  unfold round_aspect
  apply max_le _ h1
  split
  · exact hf
  · exact hc

/-- round_aspect of a positive rational is within 1 of it. -/
theorem round_aspect_close (q : ℚ) (key : ℤ → ℚ) (hq : 0 < q) :
    |(round_aspect q key : ℚ) - q| ≤ 1 := by
  have hfl : (⌊q⌋ : ℚ) ≤ q := Int.floor_le q
  have hfl2 : q - 1 < ⌊q⌋ := Int.sub_one_lt_floor q
  have hcl : q ≤ ⌈q⌉ := Int.le_ceil q
  have hcl2 : (⌈q⌉ : ℚ) < q + 1 := Int.ceil_lt_add_one q
  unfold round_aspect
  set r := if key ⌊q⌋ ≤ key ⌈q⌉ then ⌊q⌋ else ⌈q⌉ with hr
  have hrfc : r = ⌊q⌋ ∨ r = ⌈q⌉ := by
    rw [hr]
    split
    · exact Or.inl rfl
    · exact Or.inr rfl
  rcases le_or_lt 1 r with h1 | h1
  · rw [max_eq_left h1, abs_le]
    rcases hrfc with h | h <;> rw [h] <;> constructor <;> linarith
  · rw [max_eq_right (le_of_lt h1)]
    rcases hrfc with h | h
    · have hle0 : ⌊q⌋ ≤ 0 := by omega
      have hq1 : q < 1 := by
        have h2 : (⌊q⌋ : ℚ) ≤ 0 := by exact_mod_cast hle0
        linarith
      rw [abs_le]
      constructor <;> push_cast <;> linarith
    · exfalso
      have hle0 : ⌈q⌉ ≤ 0 := by omega
      have h2 : (⌈q⌉ : ℚ) ≤ 0 := by exact_mod_cast hle0
      linarith

/-- The thumbnail never upscales, fits the box, stays nonempty, and keeps
the aspect ratio up to the integer rounding of one coordinate:
|w'·H − h'·W| ≤ max W H. -/
theorem thumbnail_bounds (img : Frame) (bw bh : ℕ)
    (hfw : 1 ≤ img.width) (hfh : 1 ≤ img.height) (hbw : 1 ≤ bw) (hbh : 1 ≤ bh) :
    (thumbnail img bw bh).width ≤ img.width ∧
    (thumbnail img bw bh).height ≤ img.height ∧
    (thumbnail img bw bh).width ≤ bw ∧
    (thumbnail img bw bh).height ≤ bh ∧
    1 ≤ (thumbnail img bw bh).width ∧
    1 ≤ (thumbnail img bw bh).height ∧
    |((thumbnail img bw bh).width : ℚ) * (img.height : ℚ) -
        ((thumbnail img bw bh).height : ℚ) * (img.width : ℚ)| ≤
      ((max img.width img.height : ℕ) : ℚ) := by
  have hW0 : (0 : ℚ) < (img.width : ℚ) := by exact_mod_cast hfw
  have hH0 : (0 : ℚ) < (img.height : ℚ) := by exact_mod_cast hfh
  have hBW0 : (0 : ℚ) < (bw : ℚ) := by exact_mod_cast hbw
  have hBH0 : (0 : ℚ) < (bh : ℚ) := by exact_mod_cast hbh
  unfold thumbnail
  split
  · rename_i hfits
    refine ⟨le_refl _, le_refl _, hfits.1, hfits.2, hfw, hfh, ?_⟩
    rw [mul_comm]
    simp only [sub_self, abs_zero]
    positivity
  · rename_i hnofit
    dsimp only
    split
    · rename_i hbranch
      -- wide-box branch: height pinned to bh, width rounded from bh * aspect
      have hcross : (img.width : ℚ) * (bh : ℚ) ≤ (bw : ℚ) * (img.height : ℚ) :=
        (div_le_div_iff hH0 hBH0).mp hbranch
      have hbh_lt : bh < img.height := by
        by_contra hcon
        push_neg at hcon
        apply hnofit
        refine ⟨?_, hcon⟩
        have hHB : (img.height : ℚ) ≤ (bh : ℚ) := by exact_mod_cast hcon
        have : (img.width : ℚ) * (img.height : ℚ) ≤ (bw : ℚ) * (img.height : ℚ) := by
          calc (img.width : ℚ) * (img.height : ℚ) ≤ (img.width : ℚ) * (bh : ℚ) := by
                exact mul_le_mul_of_nonneg_left hHB (le_of_lt hW0)
            _ ≤ (bw : ℚ) * (img.height : ℚ) := hcross
        have hWB : (img.width : ℚ) ≤ (bw : ℚ) := le_of_mul_le_mul_right
          (by linarith [this]) hH0
        exact_mod_cast hWB
      have hBHH : (bh : ℚ) ≤ (img.height : ℚ) := by
        exact_mod_cast le_of_lt hbh_lt
      set q : ℚ := (bh : ℚ) * ((img.width : ℚ) / (img.height : ℚ)) with hqdef
      have hq0 : 0 < q := by positivity
      have hqW : q ≤ (img.width : ℚ) := by
        rw [hqdef]
        rw [mul_div_assoc']
        rw [div_le_iff hH0]
        calc (bh : ℚ) * (img.width : ℚ) ≤ (img.height : ℚ) * (img.width : ℚ) :=
              mul_le_mul_of_nonneg_right hBHH (le_of_lt hW0)
          _ = (img.width : ℚ) * (img.height : ℚ) := mul_comm _ _
      have hqBW : q ≤ (bw : ℚ) := by
        rw [hqdef, mul_div_assoc', div_le_iff hH0]
        calc (bh : ℚ) * (img.width : ℚ) = (img.width : ℚ) * (bh : ℚ) := mul_comm _ _
          _ ≤ (bw : ℚ) * (img.height : ℚ) := hcross
      set r : ℤ := round_aspect q
        (fun n => |(img.width : ℚ) / (img.height : ℚ) - (n : ℚ) / (bh : ℚ)|) with hrdef
      have hr1 : 1 ≤ r := round_aspect_one_le _ _
      have hrW : r ≤ (img.width : ℤ) := round_aspect_le_of_le _ _ _
        (by exact_mod_cast hfw) (by push_cast; exact hqW)
      have hrBW : r ≤ (bw : ℤ) := round_aspect_le_of_le _ _ _
        (by exact_mod_cast hbw) (by push_cast; exact hqBW)
      have hr0 : (0 : ℤ) ≤ r := by omega
      have hrcast : ((r.toNat : ℕ) : ℚ) = (r : ℚ) := by
        exact_mod_cast Int.toNat_of_nonneg hr0
      have hclose : |(r : ℚ) - q| ≤ 1 := round_aspect_close q _ hq0
      dsimp only
      refine ⟨by omega, by omega, by omega, le_refl _, by omega, hbh, ?_⟩
      have hqH : q * (img.height : ℚ) = (bh : ℚ) * (img.width : ℚ) := by
        rw [hqdef]
        field_simp
      have habs : |(r.toNat : ℚ) * (img.height : ℚ) - (bh : ℚ) * (img.width : ℚ)| =
          |(r : ℚ) - q| * (img.height : ℚ) := by
        rw [hrcast, ← hqH, ← sub_mul, abs_mul, abs_of_pos hH0]
      rw [habs]
      calc |(r : ℚ) - q| * (img.height : ℚ) ≤ 1 * (img.height : ℚ) :=
            mul_le_mul_of_nonneg_right hclose (le_of_lt hH0)
        _ = (img.height : ℚ) := one_mul _
        _ ≤ ((max img.width img.height : ℕ) : ℚ) := by
            push_cast
            exact le_max_right _ _
    · rename_i hbranch
      -- tall-box branch: width pinned to bw, height rounded from bw / aspect
      push_neg at hbranch
      have hcross : (bw : ℚ) * (img.height : ℚ) < (img.width : ℚ) * (bh : ℚ) :=
        (div_lt_div_iff hBH0 hH0).mp hbranch
      have hbw_lt : bw < img.width := by
        by_contra hcon
        push_neg at hcon
        apply hnofit
        refine ⟨hcon, ?_⟩
        have hWB : (img.width : ℚ) ≤ (bw : ℚ) := by exact_mod_cast hcon
        have : (img.width : ℚ) * (img.height : ℚ) < (img.width : ℚ) * (bh : ℚ) := by
          calc (img.width : ℚ) * (img.height : ℚ) ≤ (bw : ℚ) * (img.height : ℚ) :=
                mul_le_mul_of_nonneg_right hWB (le_of_lt hH0)
            _ < (img.width : ℚ) * (bh : ℚ) := hcross
        have hHB : (img.height : ℚ) < (bh : ℚ) := lt_of_mul_lt_mul_left this (le_of_lt hW0)
        have : img.height ≤ bh := by
          have : img.height < bh := by exact_mod_cast hHB
          omega
        exact this
      have hBWW : (bw : ℚ) ≤ (img.width : ℚ) := by
        exact_mod_cast le_of_lt hbw_lt
      set q : ℚ := (bw : ℚ) / ((img.width : ℚ) / (img.height : ℚ)) with hqdef
      have hqalt : q = (bw : ℚ) * (img.height : ℚ) / (img.width : ℚ) := by
        rw [hqdef, div_div_eq_mul_div]
      have hq0 : 0 < q := by
        rw [hqalt]
        positivity
      have hqH : q ≤ (img.height : ℚ) := by
        rw [hqalt, div_le_iff hW0]
        calc (bw : ℚ) * (img.height : ℚ) ≤ (img.width : ℚ) * (img.height : ℚ) :=
              mul_le_mul_of_nonneg_right hBWW (le_of_lt hH0)
          _ = (img.height : ℚ) * (img.width : ℚ) := mul_comm _ _
      have hqBH : q ≤ (bh : ℚ) := by
        rw [hqalt, div_le_iff hW0]
        calc (bw : ℚ) * (img.height : ℚ) ≤ (img.width : ℚ) * (bh : ℚ) :=
              le_of_lt hcross
          _ = (bh : ℚ) * (img.width : ℚ) := mul_comm _ _
      set r : ℤ := round_aspect q
        (fun n => if n = 0 then 0 else
          |(img.width : ℚ) / (img.height : ℚ) - (bw : ℚ) / (n : ℚ)|) with hrdef
      have hr1 : 1 ≤ r := round_aspect_one_le _ _
      have hrH : r ≤ (img.height : ℤ) := round_aspect_le_of_le _ _ _
        (by exact_mod_cast hfh) (by push_cast; exact hqH)
      have hrBH : r ≤ (bh : ℤ) := round_aspect_le_of_le _ _ _
        (by exact_mod_cast hbh) (by push_cast; exact hqBH)
      have hr0 : (0 : ℤ) ≤ r := by omega
      have hrcast : ((r.toNat : ℕ) : ℚ) = (r : ℚ) := by
        exact_mod_cast Int.toNat_of_nonneg hr0
      have hclose : |(r : ℚ) - q| ≤ 1 := round_aspect_close q _ hq0
      dsimp only
      refine ⟨by omega, by omega, le_refl _, by omega, hbw, by omega, ?_⟩
      have hqW : q * (img.width : ℚ) = (bw : ℚ) * (img.height : ℚ) := by
        rw [hqalt]
        field_simp
      have habs : |(bw : ℚ) * (img.height : ℚ) - (r.toNat : ℚ) * (img.width : ℚ)| =
          |q - (r : ℚ)| * (img.width : ℚ) := by
        rw [hrcast, ← hqW, ← sub_mul, abs_mul, abs_of_pos hW0]
      rw [show |((bw : ℕ) : ℚ) * (img.height : ℚ) - (r.toNat : ℚ) * (img.width : ℚ)| =
          |(bw : ℚ) * (img.height : ℚ) - (r.toNat : ℚ) * (img.width : ℚ)| from rfl]
      rw [habs]
      calc |q - (r : ℚ)| * (img.width : ℚ) ≤ 1 * (img.width : ℚ) := by
            rw [abs_sub_comm]
            exact mul_le_mul_of_nonneg_right hclose (le_of_lt hW0)
        _ = (img.width : ℚ) := one_mul _
        _ ≤ ((max img.width img.height : ℕ) : ℚ) := by
            push_cast
            exact le_max_left _ _

/-- Python floor division by 2 agrees with Euclidean division on
nonnegative operands. -/
theorem fdiv_two_of_nonneg (m : ℤ) (hm : 0 ≤ m) : m.fdiv 2 = m / 2 :=
  Int.fdiv_eq_ediv _ (by norm_num)

/-! ## C7: compositor canvas and letterboxing -/

/-- C7: for every input frame (of any positive size) and every kind string,
the composited output has exactly the configured canvas dimensions; the
source frame is only ever scaled down — the pasted thumbnail is no larger
than the frame in either dimension and fits the canvas — aspect ratio is
preserved up to rounding of one coordinate, and the thumbnail is centered
(left/right and top/bottom margins differ by at most one pixel). The model
is a total function, so no kind or frame size makes the call fail. -/
theorem compositor_fixed_canvas_and_letterbox (image : Frame) (kind message : String)
    (raw_output : Option String) (countdown_secs : ℚ) (w h : ℕ)
    (hfw : 1 ≤ image.width) (hfh : 1 ≤ image.height) (hw : 1 ≤ w) (hh : 1 ≤ h) :
    (render_feedback_frame image kind message raw_output countdown_secs (w, h)).canvasW = w ∧
    (render_feedback_frame image kind message raw_output countdown_secs (w, h)).canvasH = h ∧
    (render_feedback_frame image kind message raw_output countdown_secs (w, h)).thumbW ≤
      image.width ∧
    (render_feedback_frame image kind message raw_output countdown_secs (w, h)).thumbH ≤
      image.height ∧
    (render_feedback_frame image kind message raw_output countdown_secs (w, h)).thumbW ≤ w ∧
    (render_feedback_frame image kind message raw_output countdown_secs (w, h)).thumbH ≤ h ∧
    |((render_feedback_frame image kind message raw_output countdown_secs (w, h)).thumbW : ℚ) *
        (image.height : ℚ) -
      ((render_feedback_frame image kind message raw_output countdown_secs (w, h)).thumbH : ℚ) *
        (image.width : ℚ)| ≤ ((max image.width image.height : ℕ) : ℚ) ∧
    (0 ≤ (render_feedback_frame image kind message raw_output countdown_secs (w, h)).pasteX ∧
      (render_feedback_frame image kind message raw_output countdown_secs (w, h)).pasteX ≤
        (w : ℤ) -
          ((render_feedback_frame image kind message raw_output countdown_secs (w, h)).thumbW : ℤ) -
          (render_feedback_frame image kind message raw_output countdown_secs (w, h)).pasteX ∧
      (w : ℤ) -
          ((render_feedback_frame image kind message raw_output countdown_secs (w, h)).thumbW : ℤ) -
          (render_feedback_frame image kind message raw_output countdown_secs (w, h)).pasteX ≤
        (render_feedback_frame image kind message raw_output countdown_secs (w, h)).pasteX + 1) ∧
    (0 ≤ (render_feedback_frame image kind message raw_output countdown_secs (w, h)).pasteY ∧
      (render_feedback_frame image kind message raw_output countdown_secs (w, h)).pasteY ≤
        (h : ℤ) -
          ((render_feedback_frame image kind message raw_output countdown_secs (w, h)).thumbH : ℤ) -
          (render_feedback_frame image kind message raw_output countdown_secs (w, h)).pasteY ∧
      (h : ℤ) -
          ((render_feedback_frame image kind message raw_output countdown_secs (w, h)).thumbH : ℤ) -
          (render_feedback_frame image kind message raw_output countdown_secs (w, h)).pasteY ≤
        (render_feedback_frame image kind message raw_output countdown_secs (w, h)).pasteY + 1) := by
  have hb := thumbnail_bounds image w h hfw hfh hw hh
  dsimp only [render_feedback_frame]
  have hmw : (0 : ℤ) ≤ (w : ℤ) - ((thumbnail image w h).width : ℤ) := by
    have := hb.2.2.1
    omega
  have hmh : (0 : ℤ) ≤ (h : ℤ) - ((thumbnail image w h).height : ℤ) := by
    have := hb.2.2.2.1
    omega
  rw [fdiv_two_of_nonneg _ hmw, fdiv_two_of_nonneg _ hmh]
  refine ⟨rfl, rfl, hb.1, hb.2.1, hb.2.2.1, hb.2.2.2.1, hb.2.2.2.2.2.2, ?_, ?_⟩
  · omega
  · omega

/-- C7 witness: a 640×480 frame letterboxed onto a 600×600 canvas with the
"error" kind: the canvas dimensions are exact and all bounds hold. -/
theorem compositor_fixed_canvas_and_letterbox_witness :
    (render_feedback_frame ⟨640, 480⟩ "error" "hi" none 1.2 (600, 600)).canvasW = 600 ∧
    (render_feedback_frame ⟨640, 480⟩ "error" "hi" none 1.2 (600, 600)).canvasH = 600 ∧
    (render_feedback_frame ⟨640, 480⟩ "error" "hi" none 1.2 (600, 600)).thumbW ≤ 640 ∧
    (render_feedback_frame ⟨640, 480⟩ "error" "hi" none 1.2 (600, 600)).thumbH ≤ 480 ∧
    0 ≤ (render_feedback_frame ⟨640, 480⟩ "error" "hi" none 1.2 (600, 600)).pasteX := by
  have hc := compositor_fixed_canvas_and_letterbox ⟨640, 480⟩ "error" "hi" none 1.2 600 600
    (by norm_num) (by norm_num) (by norm_num) (by norm_num)
  exact ⟨hc.1, hc.2.1, hc.2.2.1, hc.2.2.2.1, hc.2.2.2.2.2.2.2.1.1⟩

end Slouchless
